import Mathlib

/-!
# Verification of the quicksight-mcp pagination and tool-boundary layer

Shallow embedding of the drain-then-slice pagination pattern and the
tool-boundary error handling of the `quicksight_mcp` package:

* `drainLoop` embeds the `while True` continuation-token loop of
  `AnalysisService.list_analyses` (`services/analysis.py`, lines 23-46);
  the same loop body appears verbatim in `SearchService.search_analyses`
  and `SearchService.search_dashboards` (`services/search.py`).
* `pySlice` embeds Python's built-in list slicing `xs[a:b]`, which the
  tool layer uses to window the drained list.
* `list_analyses` embeds the body of the `list_analyses` tool
  (`tools/analysis.py`, lines 38-72) and `search_dashboards` the body of
  the `search_dashboards` tool (`tools/search.py`, lines 37-68); the
  service call's outcome (the fully drained list, or the exception the
  service re-raised) is passed in as an `Except` value.
* `quicksight_overview` embeds the discovery tool
  (`tools/discovery.py`, lines 20-42), which performs four service list
  calls with no `try`/`except`.
* `update_analysis_params` and `generate_embed_url_for_anonymous_user_params`
  embed the remote-call parameter dictionaries built by
  `AnalysisService.update_analysis` (`services/analysis.py`, lines 107-119)
  and `EmbedService.generate_embed_url_for_anonymous_user`
  (`services/embed.py`, lines 33-46), including Python truthiness of the
  optional-field guards.
-/

namespace QuickSightMCP

/-- Python truthiness of an optional continuation-token string: `None` and
the empty string are falsy (`if not next_token: break`). -/
def tokTruthy : Option String → Bool
  | none => false
  | some s => s != ""

/-- Embeds the `while True` loop of `AnalysisService.list_analyses`
(`services/analysis.py` lines 26-39; the identical loop appears in
`SearchService.search_analyses` and `search_dashboards`).  `fetch tok` is
one remote call issued with `NextToken = tok` (`none` on the first call);
it returns the page's item list and the response's `NextToken`, or raises
(`Except.error`).  `acc` is the accumulator list (`analyses`).  The source
enforces no iteration bound, so the loop is fuel-indexed: `none` means the
fuel ran out while the loop was still running.  On an exception the
accumulated items are discarded and the error re-raised (the `except`
clause at lines 44-46 logs and `raise`s). -/
def drainLoop (fetch : Option String → Except String (List α × Option String)) :
    Nat → Option String → List α → Option (Except String (List α))
  | 0, _, _ => none
  | fuel + 1, tok, acc =>
    match fetch tok with
    | .error e => some (.error e)
    | .ok (items, nt) =>
      if tokTruthy nt then drainLoop fetch fuel nt (acc ++ items)
      else some (.ok (acc ++ items))

/-- `AnalysisService.list_analyses` / `SearchService.search_dashboards`:
the drain starts with no token and an empty accumulator. -/
def serviceDrain (fetch : Option String → Except String (List α × Option String))
    (fuel : Nat) : Option (Except String (List α)) :=
  drainLoop fetch fuel none []

/-- Normalisation of one Python slice bound against a list of length `n`:
a negative bound counts from the end (clamped below at 0), a non-negative
bound is clamped above at `n`. -/
def pyBound (n : Nat) (i : Int) : Nat :=
  if i < 0 then ((n : Int) + i).toNat else min i.toNat n

/-- Python list slicing `xs[a:b]`: the elements whose index `k` satisfies
`pyBound n a ≤ k < pyBound n b`, in order. -/
def pySlice (xs : List α) (a b : Int) : List α :=
  (xs.take (pyBound xs.length b)).drop (pyBound xs.length a)

/-- `PaginationInfo` dataclass (`models/tool_models.py` lines 12-19). -/
structure PaginationInfo where
  limit : Int
  offset : Int
  total : Int
  has_more : Bool
  next_offset : Option Int := none
  deriving Repr, DecidableEq

/-- `ErrorInfo` dataclass (`models/tool_models.py` lines 22-27); the
`details` dict is never populated by any modeled code path and is omitted. -/
structure ErrorInfo where
  message : String
  code : Option String := none
  deriving Repr, DecidableEq

/-- `ListAnalysesResponse` dataclass (`models/tool_models.py` lines 40-46). -/
structure ListAnalysesResponse (α : Type) where
  analyses : List α
  pagination : PaginationInfo
  status : String := "SUCCESS"
  error : Option ErrorInfo := none
  deriving Repr, DecidableEq

/-- `SearchDashboardsResponse` dataclass (`models/tool_models.py` lines 817-823). -/
structure SearchDashboardsResponse (α : Type) where
  dashboards : List α
  pagination : PaginationInfo
  status : String := "SUCCESS"
  error : Option ErrorInfo := none
  deriving Repr, DecidableEq

/-- Body of the `list_analyses` tool (`tools/analysis.py` lines 38-72).
`drained` is the outcome of `service.list_analyses()`: the fully drained
list on success, or the exception it re-raised.  The success branch slices
`all_analyses[start_idx:end_idx]` with `limit = 10`; the `except` branch
(lines 65-72) returns an empty list, `PaginationInfo(limit=10,
offset=request.offset, total=0, has_more=False)`, status `"FAILED"` and
`ErrorInfo(message=str(e))`. -/
def list_analyses (drained : Except String (List α)) (offset : Int) :
    ListAnalysesResponse α :=
  match drained with
  | .ok all_analyses =>
    let limit : Int := 10
    let start_idx : Int := offset
    let end_idx : Int := start_idx + limit
    let paginated := pySlice all_analyses start_idx end_idx
    let has_more := decide (end_idx < (all_analyses.length : Int))
    let next_offset := if end_idx < (all_analyses.length : Int) then some end_idx else none
    { analyses := paginated
      pagination :=
        { limit := limit, offset := offset, total := all_analyses.length
          has_more := has_more, next_offset := next_offset }
      status := "SUCCESS" }
  | .error e =>
    { analyses := []
      pagination := { limit := 10, offset := offset, total := 0, has_more := false }
      status := "FAILED"
      error := some { message := e } }

/-- Body of the `search_dashboards` tool (`tools/search.py` lines 37-68),
identical in structure to `list_analyses` modulo field names.  `drained` is
the outcome of `service.search_dashboards(filters=request.filters)`. -/
def search_dashboards (drained : Except String (List α)) (offset : Int) :
    SearchDashboardsResponse α :=
  match drained with
  | .ok all_dashboards =>
    let limit : Int := 10
    let start_idx : Int := offset
    let end_idx : Int := start_idx + limit
    let paginated := pySlice all_dashboards start_idx end_idx
    { dashboards := paginated
      pagination :=
        { limit := 10, offset := offset, total := all_dashboards.length
          has_more := decide (end_idx < (all_dashboards.length : Int))
          next_offset :=
            if end_idx < (all_dashboards.length : Int) then some end_idx else none }
      status := "SUCCESS" }
  | .error e =>
    { dashboards := []
      pagination := { limit := 10, offset := offset, total := 0, has_more := false }
      status := "FAILED"
      error := some { message := e } }

/-- The dict returned by the `quicksight_overview` tool
(`tools/discovery.py` lines 37-42). -/
structure OverviewCounts where
  datasets_count : Nat
  datasources_count : Nat
  analyses_count : Nat
  dashboards_count : Nat
  deriving Repr, DecidableEq

/-- Body of the `quicksight_overview` tool (`tools/discovery.py` lines
20-42): four sequential service list calls (datasets, datasources,
analyses, dashboards) with no `try`/`except` — an exception raised by any
of them escapes the tool (`Except.error` propagates). -/
def quicksight_overview (datasets datasources analyses dashboards :
    Except String (List α)) : Except String OverviewCounts := do
  let ds ← datasets
  let dsrc ← datasources
  let an ← analyses
  let db ← dashboards
  return { datasets_count := ds.length
           datasources_count := dsrc.length
           analyses_count := an.length
           dashboards_count := db.length }

/-- A Python value, as far as the marshalling code inspects one: strings,
ints, lists and string-keyed dicts (dict insertion order kept). -/
inductive PyVal where
  | str : String → PyVal
  | int : Int → PyVal
  | list : List PyVal → PyVal
  | dict : List (String × PyVal) → PyVal
  deriving Repr

/-- Python truthiness of a value: empty string, zero, empty list and empty
dict are falsy. -/
def PyVal.truthy : PyVal → Bool
  | .str s => s != ""
  | .int n => n != 0
  | .list l => !l.isEmpty
  | .dict d => !d.isEmpty

/-- Python truthiness of an optional argument: `None` is falsy, otherwise
the value's own truthiness. -/
def optTruthy : Option PyVal → Bool
  | none => false
  | some v => v.truthy

/-- One `if x: params['Key'] = x` step: the entry is added iff the optional
argument is truthy. -/
def optEntry (key : String) (v : Option PyVal) : List (String × PyVal) :=
  match v with
  | some x => if x.truthy then [(key, x)] else []
  | none => []

/-- The `params` dict built by `AnalysisService.update_analysis`
(`services/analysis.py` lines 107-119): three mandatory entries, then
`Definition`, `SourceEntity` and `ThemeArn` each added iff truthy. -/
def update_analysis_params (account_id analysis_id name : String)
    (definition source_entity : Option PyVal) (theme_arn : Option String) :
    List (String × PyVal) :=
  [("AwsAccountId", .str account_id), ("AnalysisId", .str analysis_id),
   ("Name", .str name)]
  ++ optEntry "Definition" definition
  ++ optEntry "SourceEntity" source_entity
  ++ optEntry "ThemeArn" (theme_arn.map .str)

/-- The `params` dict built by
`EmbedService.generate_embed_url_for_anonymous_user` (`services/embed.py`
lines 33-46): four mandatory entries, then `SessionLifetimeInMinutes`,
`AllowedDomains` and `SessionTags` each added iff truthy (so
`session_lifetime_in_minutes = 0` is dropped like `None`). -/
def generate_embed_url_for_anonymous_user_params (account_id ns : String)
    (authorized_resource_arns : List String) (experience_configuration : PyVal)
    (session_lifetime_in_minutes : Option Int)
    (allowed_domains : Option (List String)) (session_tags : Option (List PyVal)) :
    List (String × PyVal) :=
  [("AwsAccountId", .str account_id), ("Namespace", .str ns),
   ("AuthorizedResourceArns", .list (authorized_resource_arns.map .str)),
   ("ExperienceConfiguration", experience_configuration)]
  ++ optEntry "SessionLifetimeInMinutes" (session_lifetime_in_minutes.map .int)
  ++ optEntry "AllowedDomains" (allowed_domains.map (fun l => .list (l.map .str)))
  ++ optEntry "SessionTags" (session_tags.map .list)

/-- `Chain fetch tok pages`: starting from token `tok`, the upstream
answers the drain's calls with exactly the pages `pages`; every non-final
call returns a truthy token which is what the next call passes, and the
final call returns no token.  This is the call pattern the spec describes
for `drain`. -/
inductive Chain (fetch : Option String → Except String (List α × Option String)) :
    Option String → List (List α) → Prop
  | last {tok : Option String} {items : List α} :
      fetch tok = .ok (items, none) → Chain fetch tok [items]
  | cons {tok : Option String} {items : List α} {t : String} {rest : List (List α)} :
      fetch tok = .ok (items, some t) → t ≠ "" →
      Chain fetch (some t) rest → Chain fetch tok (items :: rest)

/-- `ChainFails fetch tok n e`: starting from token `tok`, the drain's
calls see `n` successful pages (each returning a truthy token passed on to
the next call) and then a call that raises `e`. -/
inductive ChainFails (fetch : Option String → Except String (List α × Option String)) :
    Option String → Nat → String → Prop
  | here {tok : Option String} {e : String} :
      fetch tok = .error e → ChainFails fetch tok 0 e
  | step {tok : Option String} {items : List α} {t : String} {n : Nat} {e : String} :
      fetch tok = .ok (items, some t) → t ≠ "" →
      ChainFails fetch (some t) n e → ChainFails fetch tok (n + 1) e

/-- The elements of `xs` whose index `k` satisfies `s ≤ k < t`, in index
order. -/
def sliceIdx (xs : List α) (s t : Nat) : List α :=
  ((List.range xs.length).filter (fun k => s ≤ k && k < t)).filterMap
    (fun k => xs[k]?)

/-- Modelled from the spec (§4.1 `page`, §8): Python slice semantics stated
from first principles — `S[a:b]` holds exactly the elements of `S` whose
index `k` satisfies `norm a ≤ k < norm b`, in index order.  Used as the
independent specification that `pySlice` (and hence the tools' windowing
step) is compared against. -/
def pySliceSpec (xs : List α) (a b : Int) : List α :=
  sliceIdx xs (pyBound xs.length a) (pyBound xs.length b)

/-- A concrete two-page upstream: the first call (no token) yields `[1, 2]`
and token `"t1"`; the call with `"t1"` yields `[3]` and no token. -/
def chainedFetchEx : Option String → Except String (List Nat × Option String)
  | none => .ok ([1, 2], some "t1")
  | some s => if s = "t1" then .ok ([3], none) else .error "unexpected"

/-- A concrete upstream whose second call raises: the first call yields
`[1, 2]` and token `"t1"`, every later call raises `"boom"`. -/
def failingFetchEx : Option String → Except String (List Nat × Option String)
  | none => .ok ([1, 2], some "t1")
  | some _ => .error "boom"

/-! ## Supporting lemmas -/

theorem pyBound_of_nonneg (n : ℕ) (i : ℤ) (h : 0 ≤ i) :
    pyBound n i = min i.toNat n := by
  unfold pyBound
  rw [if_neg (by omega)]

/-- With non-negative bounds, a Python slice is drop-then-take. -/
theorem pySlice_eq_drop_take (xs : List α) (a b : Int) (ha : 0 ≤ a) (hb : 0 ≤ b) :
    pySlice xs a b = (xs.drop a.toNat).take (b.toNat - a.toNat) := by
  unfold pySlice
  rw [pyBound_of_nonneg _ _ ha, pyBound_of_nonneg _ _ hb, List.drop_take]
  rcases Nat.lt_or_ge a.toNat xs.length with h | h
  · rw [Nat.min_eq_left h.le]
    refine List.take_eq_take.mpr ?_
    rw [List.length_drop]
    omega
  · have h1 : xs.drop a.toNat = [] := List.drop_eq_nil_iff.mpr h
    rw [Nat.min_eq_right h, List.drop_length, h1]
    simp

theorem sliceIdx_eq_take_drop (xs : List α) :
    ∀ s t : ℕ, sliceIdx xs s t = (xs.take t).drop s := by
  induction xs with
  | nil => intro s t; simp [sliceIdx]
  | cons x xs ih =>
    intro s t
    have hmap : ∀ p : ℕ → Bool,
        ((List.range xs.length).map (· + 1)).filter p
          = ((List.range xs.length).filter (fun k => p (k + 1))).map (· + 1) := by
      intro p
      rw [List.filter_map]
      rfl
    have core : ((List.map (· + 1) ((List.range xs.length).filter
          (fun k => s ≤ k + 1 && k + 1 < t)))).filterMap (fun k => (x :: xs)[k]?)
        = (xs.take (t - 1)).drop (s - 1) := by
      rw [List.filterMap_map]
      have hfm : ((List.range xs.length).filter (fun k => s ≤ k + 1 && k + 1 < t)).filterMap
            ((fun k => (x :: xs)[k]?) ∘ (· + 1))
          = ((List.range xs.length).filter
              (fun k => s ≤ k + 1 && k + 1 < t)).filterMap (fun k => xs[k]?) :=
        List.filterMap_congr (fun k _ => by simp)
      rw [hfm]
      have hpred : ∀ k : ℕ,
          (decide (s ≤ k + 1) && decide (k + 1 < t))
            = (decide (s - 1 ≤ k) && decide (k < t - 1)) := by
        intro k
        rcases Bool.eq_false_or_eq_true (decide (s ≤ k + 1) && decide (k + 1 < t)) with
          hv | hv <;>
          rcases Bool.eq_false_or_eq_true (decide (s - 1 ≤ k) && decide (k < t - 1)) with
            hw | hw <;>
          rw [hv, hw] <;>
          simp only [Bool.and_eq_true, decide_eq_true_eq, Bool.and_eq_false_iff,
            decide_eq_false_iff_not] at hv hw <;>
          omega
      have hflt : (List.range xs.length).filter (fun k => s ≤ k + 1 && k + 1 < t)
          = (List.range xs.length).filter (fun k => s - 1 ≤ k && k < t - 1) :=
        List.filter_congr (fun k _ => hpred k)
      rw [hflt]
      have := ih (s - 1) (t - 1)
      unfold sliceIdx at this
      exact this
    unfold sliceIdx
    rw [List.length_cons, List.range_succ_eq_map, List.filter_cons, hmap]
    match t, s with
    | 0, s =>
      rw [if_neg (by simp)]
      rw [core]
      simp
    | t + 1, 0 =>
      rw [if_pos (by simp)]
      rw [List.filterMap_cons]
      simp only [List.getElem?_cons_zero]
      rw [core]
      simp [List.take_succ_cons]
    | t + 1, s + 1 =>
      rw [if_neg (by simp)]
      rw [core]
      simp [List.take_succ_cons]

/-- The code's slicing agrees with the first-principles index
specification of a Python slice. -/
theorem pySlice_eq_pySliceSpec (xs : List α) (a b : Int) :
    pySlice xs a b = pySliceSpec xs a b := by
  rw [pySliceSpec, sliceIdx_eq_take_drop]
  rfl

/-- When the upstream answers the drain's calls with the pages of a token
chain, the loop returns the accumulator followed by all pages
concatenated in call order. -/
theorem drainLoop_chain
    {fetch : Option String → Except String (List α × Option String)}
    {tok : Option String} {pages : List (List α)} (h : Chain fetch tok pages) :
    ∀ fuel acc, pages.length ≤ fuel →
      drainLoop fetch fuel tok acc = some (.ok (acc ++ pages.flatten)) := by
  induction h with
  | @last tok0 items hfetch =>
    intro fuel acc hfuel
    match fuel with
    | f + 1 =>
      unfold drainLoop
      rw [hfetch]
      simp [tokTruthy]
  | @cons tok0 items t rest hfetch ht _ ih =>
    intro fuel acc hfuel
    match fuel with
    | f + 1 =>
      unfold drainLoop
      rw [hfetch]
      have htr : tokTruthy (some t) = true := by
        simp [tokTruthy]
        exact ht
      simp only [htr, if_true]
      rw [ih f (acc ++ items) (by simp at hfuel; omega)]
      simp

/-- When some upstream call raises after `n` successful pages, the loop
returns that error and discards everything accumulated so far. -/
theorem drainLoop_chainFails
    {fetch : Option String → Except String (List α × Option String)}
    {tok : Option String} {n : Nat} {e : String} (h : ChainFails fetch tok n e) :
    ∀ fuel acc, n < fuel → drainLoop fetch fuel tok acc = some (.error e) := by
  induction h with
  | here hfetch =>
    intro fuel acc hfuel
    match fuel with
    | f + 1 =>
      unfold drainLoop
      rw [hfetch]
  | @step tok0 items t n0 e0 hfetch ht _ ih =>
    intro fuel acc hfuel
    match fuel with
    | f + 1 =>
      unfold drainLoop
      rw [hfetch]
      have htr : tokTruthy (some t) = true := by
        simp [tokTruthy]
        exact ht
      simp only [htr, if_true]
      exact ih f (acc ++ items) (Nat.lt_of_succ_lt_succ hfuel)

/-- Key presence in an optional-field entry: the key appears iff the
optional argument is truthy. -/
theorem mem_optEntry_keys (x key : String) (v : Option PyVal) :
    (∃ w, (x, w) ∈ optEntry key v) ↔ x = key ∧ optTruthy v = true := by
  cases v with
  | none => simp [optEntry, optTruthy]
  | some u =>
    by_cases h : u.truthy <;> simp [optEntry, optTruthy, h]

/-- A falsy optional argument produces the same entry list as an omitted
one. -/
theorem optEntry_falsy (key : String) (v : Option PyVal) (h : optTruthy v = false) :
    optEntry key v = optEntry key none := by
  cases v with
  | none => rfl
  | some w =>
    simp only [optTruthy] at h
    simp [optEntry, h]

/-! ## Claim theorems -/

/-- C1: for every finite drained sequence `S`, every non-negative offset
and the fixed limit 10, a successful list tool call returns items equal to
the slice `S[offset : offset+10]` (drop `offset`, take 10) and reports
`total = |S|`; the windowing step preserves upstream order — the page is a
contiguous infix of `S` — and does not re-sort.  The same holds for the
search tool. -/
theorem list_page_items_are_slice (S : List α) (offset : Int) (h : 0 ≤ offset) :
    (list_analyses (.ok S) offset).analyses = (S.drop offset.toNat).take 10 ∧
    (list_analyses (.ok S) offset).pagination.total = S.length ∧
    (list_analyses (.ok S) offset).status = "SUCCESS" ∧
    (∃ pre post, S = pre ++ (list_analyses (.ok S) offset).analyses ++ post) ∧
    (search_dashboards (.ok S) offset).dashboards = (S.drop offset.toNat).take 10 ∧
    (search_dashboards (.ok S) offset).pagination.total = S.length := by
  have hsl : pySlice S offset (offset + 10) = (S.drop offset.toNat).take 10 := by
    rw [pySlice_eq_drop_take S offset (offset + 10) h (by omega)]
    congr 1
    omega
  refine ⟨hsl, rfl, rfl, ?_, hsl, rfl⟩
  refine ⟨S.take offset.toNat, (S.drop offset.toNat).drop 10, ?_⟩
  show S = S.take offset.toNat ++ pySlice S offset (offset + 10) ++ _
  rw [hsl, List.append_assoc, List.take_append_drop, List.take_append_drop]

/-- C1 witness: 25 items, offset 2 — the page is items 2 through 11. -/
theorem list_page_items_are_slice_witness :
    (0 : Int) ≤ 2 ∧
    (list_analyses (.ok (List.range 25)) 2).analyses
      = [2, 3, 4, 5, 6, 7, 8, 9, 10, 11] := by
  refine ⟨by decide, ?_⟩
  rw [(list_page_items_are_slice (List.range 25) 2 (by decide)).1]
  decide

/-- C2: every successful page response satisfies
`has_more ↔ offset + limit < total`, and `next_offset` equals
`offset + limit` exactly when `has_more` holds, being absent otherwise —
for both the list and the search tool. -/
theorem page_has_more_invariant (S : List α) (offset : Int) :
    ((list_analyses (.ok S) offset).pagination.has_more = true ↔
      (list_analyses (.ok S) offset).pagination.offset +
        (list_analyses (.ok S) offset).pagination.limit <
        (list_analyses (.ok S) offset).pagination.total) ∧
    ((list_analyses (.ok S) offset).pagination.next_offset =
        some ((list_analyses (.ok S) offset).pagination.offset +
          (list_analyses (.ok S) offset).pagination.limit) ↔
      (list_analyses (.ok S) offset).pagination.has_more = true) ∧
    ((list_analyses (.ok S) offset).pagination.next_offset = none ↔
      (list_analyses (.ok S) offset).pagination.has_more = false) ∧
    ((search_dashboards (.ok S) offset).pagination.has_more = true ↔
      (search_dashboards (.ok S) offset).pagination.offset +
        (search_dashboards (.ok S) offset).pagination.limit <
        (search_dashboards (.ok S) offset).pagination.total) ∧
    ((search_dashboards (.ok S) offset).pagination.next_offset =
        some ((search_dashboards (.ok S) offset).pagination.offset +
          (search_dashboards (.ok S) offset).pagination.limit) ↔
      (search_dashboards (.ok S) offset).pagination.has_more = true) ∧
    ((search_dashboards (.ok S) offset).pagination.next_offset = none ↔
      (search_dashboards (.ok S) offset).pagination.has_more = false) := by
  by_cases hm : offset + 10 < (S.length : Int) <;>
    simp [list_analyses, search_dashboards, hm]

/-- C5: an offset at or beyond the end of `S` yields a successful response
(no error) with an empty page and `has_more = false`; in particular paging
an empty `S` at offset 0 yields an empty page, `total = 0` and
`has_more = false`. -/
theorem offset_beyond_end_empty_page (S : List α) (offset : Int)
    (h : (S.length : Int) ≤ offset) :
    (list_analyses (.ok S) offset).status = "SUCCESS" ∧
    (list_analyses (.ok S) offset).error = none ∧
    (list_analyses (.ok S) offset).analyses = [] ∧
    (list_analyses (.ok S) offset).pagination.has_more = false ∧
    (list_analyses (.ok ([] : List α)) 0).analyses = [] ∧
    (list_analyses (.ok ([] : List α)) 0).pagination.total = 0 ∧
    (list_analyses (.ok ([] : List α)) 0).pagination.has_more = false := by
  have h0 : 0 ≤ offset := le_trans (Int.natCast_nonneg _) h
  refine ⟨rfl, rfl, ?_, ?_, rfl, rfl, rfl⟩
  · show pySlice S offset (offset + 10) = []
    rw [pySlice_eq_drop_take S offset (offset + 10) h0 (by omega),
      List.drop_eq_nil_iff.mpr (by omega)]
    simp
  · show decide (offset + 10 < (S.length : Int)) = false
    simp only [decide_eq_false_iff_not]
    omega

/-- C3: the drain repeatedly invokes the remote listing call, passing the
continuation token returned by the previous call (no token on the first
call), concatenates each call's items in call order, and stops exactly
when a call returns no token: an upstream token chain of pages yields
their concatenation, in order. -/
theorem drain_concatenates_token_chain
    (fetch : Option String → Except String (List α × Option String))
    (pages : List (List α)) (fuel : Nat)
    (h : Chain fetch none pages) (hfuel : pages.length ≤ fuel) :
    serviceDrain fetch fuel = some (.ok pages.flatten) := by
  simpa [serviceDrain] using drainLoop_chain h fuel [] hfuel

/-- C3 witness: upstream pages `[1, 2]` with token `t1`, then `[3]` with
no token, drain to `[1, 2, 3]`. -/
theorem drain_concatenates_token_chain_witness :
    serviceDrain chainedFetchEx 2 = some (.ok [1, 2, 3]) := by
  have hchain : Chain chainedFetchEx none [[1, 2], [3]] :=
    Chain.cons rfl (by decide) (Chain.last rfl)
  simpa using drain_concatenates_token_chain chainedFetchEx [[1, 2], [3]] 2 hchain
    (by decide)

/-- C4: if any upstream page-fetch call fails during a drain, the failure
propagates immediately, all items accumulated from earlier successful
pages are discarded, and the tool returns a failed result with an empty
items list carrying the failure's message — never a partial page. -/
theorem drain_failure_discards_prior_items
    (fetch : Option String → Except String (List α × Option String))
    (n fuel : Nat) (e : String) (offset : Int)
    (h : ChainFails fetch none n e) (hfuel : n < fuel) :
    serviceDrain fetch fuel = some (.error e) ∧
    (list_analyses (.error e : Except String (List α)) offset).analyses = [] ∧
    (list_analyses (.error e : Except String (List α)) offset).status = "FAILED" ∧
    (list_analyses (.error e : Except String (List α)) offset).error
      = some { message := e } := by
  refine ⟨?_, rfl, rfl, rfl⟩
  simpa [serviceDrain] using drainLoop_chainFails h fuel [] hfuel

/-- C4 witness: the first page `[1, 2]` succeeds, the second call raises
`boom` — the drain yields the error and the tool page is empty. -/
theorem drain_failure_discards_prior_items_witness :
    serviceDrain failingFetchEx 2 = some (.error "boom") ∧
    (list_analyses (.error "boom" : Except String (List Nat)) 0).analyses = [] := by
  have hf : ChainFails failingFetchEx none 1 "boom" :=
    ChainFails.step rfl (by decide) (ChainFails.here rfl)
  have h := drain_failure_discards_prior_items failingFetchEx 1 2 "boom" 0 hf
    (by decide)
  exact ⟨h.1, h.2.1⟩

/-- C5 witness: three items at offset 5 — success, empty page, no more. -/
theorem offset_beyond_end_empty_page_witness :
    ((([10, 20, 30] : List Nat).length : Int) ≤ 5) ∧
    (list_analyses (.ok ([10, 20, 30] : List Nat)) 5).analyses = [] ∧
    (list_analyses (.ok ([10, 20, 30] : List Nat)) 5).pagination.has_more = false :=
  ⟨by decide,
    (offset_beyond_end_empty_page ([10, 20, 30] : List Nat) 5 (by decide)).2.2.1,
    (offset_beyond_end_empty_page ([10, 20, 30] : List Nat) 5 (by decide)).2.2.2.1⟩

/-- C6 counterexample: on the failure path with requested offset 5 the
pagination metadata is not all-zero — `limit` is 10 and `offset` echoes
the request's 5. -/
theorem error_pagination_not_zeroed :
    (list_analyses (α := Nat) (.error "boom") 5).pagination.limit ≠ 0 ∧
    (list_analyses (α := Nat) (.error "boom") 5).pagination.offset ≠ 0 := by
  exact ⟨by decide, by decide⟩

/-- C6 (amended): the failure-path result carries the failure's message
text, an empty items list, and pagination metadata with `total = 0`,
`has_more = false` and `next_offset` absent, while `limit` stays 10 and
`offset` echoes the request offset (not all fields zero). -/
theorem error_response_shape {α : Type} (e : String) (offset : Int) :
    list_analyses (.error e : Except String (List α)) offset =
      { analyses := []
        pagination :=
          { limit := 10, offset := offset, total := 0, has_more := false
            next_offset := none }
        status := "FAILED"
        error := some { message := e, code := none } } ∧
    search_dashboards (.error e : Except String (List α)) offset =
      { dashboards := []
        pagination :=
          { limit := 10, offset := offset, total := 0, has_more := false
            next_offset := none }
        status := "FAILED"
        error := some { message := e, code := none } } :=
  ⟨rfl, rfl⟩

/-- C7 counterexample: the registered `quicksight_overview` tool has no
`try`/`except` — a failure in its first service call escapes to the
tool-calling layer instead of being rewrapped into a failure result. -/
theorem overview_exception_escapes :
    quicksight_overview (α := Nat) (.error "boom") (.ok []) (.ok []) (.ok [])
      = .error "boom" :=
  rfl

/-- C7 (amended): tool operations that return a structured response model
catch exceptions at the boundary and rewrap them into a tagged failure
result, but the raw-dict tools (`quicksight_overview`, `list_dashboards`,
`describe_dashboard`, `list_datasets`, `describe_dataset`) have no
`try`/`except` and let the exception escape. -/
theorem tool_boundary_rewrap {α : Type} (e : String) (offset : Int)
    (b c d : Except String (List α)) :
    (list_analyses (.error e : Except String (List α)) offset).status = "FAILED" ∧
    (list_analyses (.error e : Except String (List α)) offset).error
      = some { message := e } ∧
    (search_dashboards (.error e : Except String (List α)) offset).status
      = "FAILED" ∧
    (search_dashboards (.error e : Except String (List α)) offset).error
      = some { message := e } ∧
    quicksight_overview (.error e) b c d = .error e :=
  ⟨rfl, rfl, rfl, rfl, rfl⟩

/-- C8: a list tool response has status `FAILED` exactly when its error
field is populated; the success path yields status `SUCCESS` with no
error, and the exception path yields status `FAILED` with the exception's
message. -/
theorem status_failed_iff_error {α : Type} (drained : Except String (List α))
    (offset : Int) :
    ((list_analyses drained offset).status = "FAILED" ↔
      (list_analyses drained offset).error ≠ none) ∧
    (∀ S : List α, (list_analyses (.ok S) offset).status = "SUCCESS" ∧
      (list_analyses (.ok S) offset).error = none) ∧
    (∀ e : String,
      (list_analyses (.error e : Except String (List α)) offset).status = "FAILED" ∧
      (list_analyses (.error e : Except String (List α)) offset).error
        = some { message := e }) := by
  refine ⟨?_, fun S => ⟨rfl, rfl⟩, fun e => ⟨rfl, rfl⟩⟩
  cases drained with
  | ok S => simp [list_analyses]
  | error e => simp [list_analyses]

/-- C9 counterexample: offset `-3` on a 25-item sequence returns an empty
page, not the last 3 items (`[22, 23, 24]`). -/
theorem negative_offset_example_empty :
    (list_analyses (.ok (List.range 25)) (-3)).analyses = [] ∧
    (List.range 25).drop 22 = [22, 23, 24] ∧
    (list_analyses (.ok (List.range 25)) (-3)).analyses ≠ (List.range 25).drop 22 := by
  refine ⟨by decide, by decide, by decide⟩

/-- C9 (amended): a negative offset with `-|S| ≤ offset < 0` is neither
rejected nor clamped — the call succeeds and the items follow Python slice
semantics `S[offset : offset+10]` (start index normalising to
`|S| + offset`); the page is a suffix of `S` taken from the end only when
`|S| ≤ offset + 10`, so offset `-3` returns the last 3 items on a 5-item
`S` but an empty page on a 25-item `S`. -/
theorem negative_offset_python_slice (S : List α) (offset : Int)
    (h1 : -(S.length : Int) ≤ offset) (h2 : offset < 0) :
    (list_analyses (.ok S) offset).status = "SUCCESS" ∧
    (list_analyses (.ok S) offset).analyses = pySliceSpec S offset (offset + 10) ∧
    ((S.length : Int) ≤ offset + 10 →
      (list_analyses (.ok S) offset).analyses
        = S.drop ((S.length : Int) + offset).toNat) := by
  refine ⟨rfl, pySlice_eq_pySliceSpec S offset (offset + 10), ?_⟩
  intro h3
  show pySlice S offset (offset + 10) = _
  unfold pySlice pyBound
  rw [if_pos h2, if_neg (by omega)]
  have hmin : min (offset + 10).toNat S.length = S.length := by omega
  rw [hmin, List.take_length]

/-- C9 (amended) witness: offset `-3` on the 5-item sequence
`[0, 1, 2, 3, 4]` returns its last 3 items. -/
theorem negative_offset_python_slice_witness :
    (-(([0, 1, 2, 3, 4] : List Nat).length : Int) ≤ -3) ∧ ((-3 : Int) < 0) ∧
    (list_analyses (.ok ([0, 1, 2, 3, 4] : List Nat)) (-3)).analyses = [2, 3, 4] := by
  refine ⟨by decide, by decide, ?_⟩
  have h := (negative_offset_python_slice ([0, 1, 2, 3, 4] : List Nat) (-3)
    (by decide) (by decide)).2.2 (by decide)
  rw [h]
  decide

/-- C10: in the modeled service operations an optional parameter is
forwarded to the remote call iff its value is truthy: a falsy value
(empty dict, empty list, 0, empty string, or `None`) produces exactly the
same remote call parameters as omitting the field, and the parameter key
is present exactly when the value is truthy — shown for
`update_analysis`'s `definition` and the embed operation's
`session_lifetime_in_minutes`. -/
theorem optional_params_forwarded_iff_truthy
    (acc aid nm : String) (d se : Option PyVal) (ta : Option String)
    (acc2 ns : String) (arns : List String) (ec : PyVal) (slm : Option Int)
    (ad : Option (List String)) (st : Option (List PyVal)) :
    update_analysis_params acc aid nm d se ta
      = update_analysis_params acc aid nm (cond (optTruthy d) d none) se ta ∧
    ("Definition" ∈ (update_analysis_params acc aid nm d se ta).map Prod.fst
      ↔ optTruthy d = true) ∧
    generate_embed_url_for_anonymous_user_params acc2 ns arns ec slm ad st
      = generate_embed_url_for_anonymous_user_params acc2 ns arns ec
          (cond (optTruthy (slm.map PyVal.int)) slm none) ad st ∧
    ("SessionLifetimeInMinutes" ∈
        (generate_embed_url_for_anonymous_user_params acc2 ns arns ec slm ad
          st).map Prod.fst
      ↔ optTruthy (slm.map PyVal.int) = true) := by
  refine ⟨?_, ?_, ?_, ?_⟩
  · cases hd : optTruthy d with
    | false =>
      unfold update_analysis_params
      rw [optEntry_falsy _ _ hd]
      rfl
    | true => rfl
  · simp [update_analysis_params, mem_optEntry_keys]
  · cases hm : optTruthy (slm.map PyVal.int) with
    | false =>
      unfold generate_embed_url_for_anonymous_user_params
      rw [optEntry_falsy _ _ hm]
      rfl
    | true => rfl
  · simp [generate_embed_url_for_anonymous_user_params, mem_optEntry_keys]

end QuickSightMCP
